import Mathlib

/-!
Shallow embedding of the fitness-tracking backend (Express + Prisma):
BMI classification and calorie estimation (src/users/stats.js), user
registration validation (middleware/userMiddleware.js, src/users/user.js),
event CRUD and registration (src/users/events.js), and the LLM-backed
endpoint handlers with the model call abstracted as an `Option` outcome.
JavaScript numbers are modelled as rationals; `Math.round` and
`Number.prototype.toFixed(2)` round half toward positive infinity.
-/

namespace FitSync

/-- JS `Math.round`: round half toward positive infinity. -/
def jsRound (q : ℚ) : ℤ := ⌊q + 1/2⌋

/-- JS `+(x.toFixed(2))`: round to two decimal places (ties toward +∞). -/
def toFixed2 (q : ℚ) : ℚ := (jsRound (q * 100) : ℚ) / 100

/-- JS `String.prototype.toLowerCase`: character-wise lowercasing. -/
def jsToLower (s : String) : String := String.mk (s.data.map Char.toLower)

/-- Split a character list at every occurrence of `sep`
(JS `String.prototype.split` with a one-character separator). -/
def splitChars (sep : Char) : List Char → List (List Char)
  | [] => [[]]
  | c :: rest =>
    if c = sep then [] :: splitChars sep rest
    else
      match splitChars sep rest with
      | t :: ts => (c :: t) :: ts
      | [] => [[c]]

/-- JS `s.split(sep)` for a one-character separator. -/
def jsSplit (sep : Char) (s : String) : List String :=
  (splitChars sep s.data).map String.mk

/-- Result shape of `getBMICategory`, stats.js lines 15-20. -/
structure BMICat where
  category : String
  good : Bool
deriving DecidableEq, Repr

/-- Function `getBMICategory` from src/users/stats.js lines 15-20. -/
def getBMICategory (bmi : ℚ) : BMICat :=
  if bmi < 18.5 then ⟨"Underweight", false⟩
  else if bmi < 25 then ⟨"Normal", true⟩
  else if bmi < 30 then ⟨"Overweight", false⟩
  else ⟨"Obese", false⟩

/-- The inline BMI categorization of the dashboard route
(`getdailystats`, dashboard file lines 704-721): same thresholds. -/
def dashboardBmiCategory (bmi : ℚ) : BMICat :=
  if bmi < 18.5 then ⟨"Underweight", false⟩
  else if bmi < 25 then ⟨"Normal", true⟩
  else if bmi < 30 then ⟨"Overweight", false⟩
  else ⟨"Obese", false⟩

/-- The `activityCalories` table, stats.js lines 23-32 (kcal/min),
looked up by (already lowercased) activity name. -/
def activityCaloriesLookup (s : String) : Option ℚ :=
  if s = "walking" then some 4
  else if s = "running" then some 10
  else if s = "swimming" then some 8
  else if s = "cycling" then some 7
  else if s = "yoga" then some 3
  else if s = "skipping" then some 12
  else if s = "dancing" then some 6
  else if s = "weightlifting" then some 6
  else none

/-- Function `calculateCalories` from stats.js lines 35-40: looks the lowercased
activity up in the table; a missing entry (JS `undefined`, falsy) — and,
faithfully to `if (!met)`, a zero entry — yields `null`; otherwise
`Math.round(met * minutes * (weightKg / 70))`. -/
def calculateCalories (activity : String) (minutes weightKg : ℚ) : Option ℚ :=
  match activityCaloriesLookup (jsToLower activity) with
  | none => none
  | some met => if met = 0 then none
                else some ((jsRound (met * minutes * (weightKg / 70)) : ℤ) : ℚ)

/-- The BMI computed by the stats endpoints (stats.js lines 105-106,
626-627, 740-741): `+(currentWeightKg / (heightM * heightM)).toFixed(2)`
with `heightM = heightCm / 100`. -/
def computeBmi (heightCm currentWeightKg : ℚ) : ℚ :=
  let heightM := heightCm / 100
  toFixed2 (currentWeightKg / (heightM * heightM))

/-- JS truthiness for an optional string field: `undefined` and `""` are falsy. -/
def truthyS : Option String → Bool
  | none => false
  | some s => s ≠ ""

/-- JS truthiness for an optional numeric field: `undefined` and `0` are falsy. -/
def truthyQ : Option ℚ → Bool
  | none => false
  | some q => q ≠ 0

/-- Parsed output schema of `mealPlanParser`, stats.js lines 43-48. -/
structure MealPlanOut where
  mealPlan : String
  suggestions : String
deriving DecidableEq, Repr

/-- Response of `POST /bmi` (stats.js lines 101-140). `healthy` and `plan`
carry HTTP status 200; `err` carries the given status. -/
inductive BmiResult
  | healthy (bmi : ℚ) (category : String) (good : Bool)
      (message mealPlan suggestions : String)
  | plan (bmi : ℚ) (category : String) (good : Bool)
      (mealPlan suggestions : String)
  | err (status : ℕ) (msg : String)
deriving DecidableEq, Repr

/-- Handler of `POST /bmi`, stats.js lines 101-140. The LLM call and its
schema validation are abstracted as `llm : Option MealPlanOut` (`none`
means the call failed or its reply did not parse). The boolean in the
result records whether `llm.invoke` was reached. -/
def bmiHandler (heightCm currentWeightKg : ℚ) (llm : Option MealPlanOut) :
    BmiResult × Bool :=
  let bmi := computeBmi heightCm currentWeightKg
  let c := getBMICategory bmi
  if c.good then
    (.healthy bmi c.category c.good "Your BMI is in a healthy range!" "NA" "NA", false)
  else
    match llm with
    | some out => (.plan bmi c.category c.good out.mealPlan out.suggestions, true)
    | none => (.err 404 "not found, try refreshing", true)

/-- Parsed output schema of `activityParser`, stats.js lines 51-56. -/
structure ActivityOut where
  calorieBurnt : ℚ
  suggestions : String
deriving DecidableEq, Repr

/-- A row of the `Activity` table as created by `POST /activity`. -/
structure StoredActivity where
  userId : ℕ
  activityName : String
  duration : ℚ
  caloriesBurnt : ℚ
  suggestions : String
  date : ℤ
deriving DecidableEq, Repr

/-- Response of `POST /activity` (stats.js lines 143-218). `ok` carries
HTTP status 200. -/
inductive ActivityResult
  | ok (calorieBurnt : ℚ) (suggestions : String)
  | err (status : ℕ) (msg : String)
deriving DecidableEq, Repr

/-- Handler of `POST /activity`, stats.js lines 143-218. `activity` and
`minutes` come from the request body (`minutes` defaults to 30 when
absent); the LLM call is abstracted as `llm : Option ActivityOut`.
Returns the response together with the new `Activity` table.
JS truthiness is kept faithfully: `if (!calories)` treats a 0 local
estimate as absent, and `if (calories)` in the failure branch skips a
0 estimate. -/
def activityHandler (userId : ℕ) (weightKg : ℚ) (activity : Option String)
    (minutes : Option ℚ) (now : ℤ) (llm : Option ActivityOut)
    (db : List StoredActivity) : ActivityResult × List StoredActivity :=
  if ¬ truthyS activity then (.err 400 "activity required", db)
  else
    let a := activity.getD ""
    let mins := minutes.getD 30
    let calories := calculateCalories a mins weightKg
    match llm with
    | some parsed =>
      let cal := match calories with
        | none => parsed.calorieBurnt
        | some c => if c = 0 then parsed.calorieBurnt else c
      (.ok cal parsed.suggestions,
        db ++ [⟨userId, a, mins, cal, parsed.suggestions, now⟩])
    | none =>
      match calories with
      | some c =>
        if c ≠ 0 then
          (.ok c "Great job completing your workout! Keep up the good work.",
            db ++ [⟨userId, a, mins, c, "AI suggestions temporarily unavailable", now⟩])
        else (.err 404 "not found, try refreshing", db)
      | none => (.err 404 "not found, try refreshing", db)

/-- JS `a || b` on a string field: the new value when truthy, else the old. -/
def jsOrS (new : Option String) (old : String) : String :=
  match new with
  | some s => if s = "" then old else s
  | none => old

/-- Parsed output schema of `mealSuggestionParser`, stats.js lines 59-68. -/
structure MealOut where
  totalCalories : ℚ
  proteinGrams : ℚ
  carbsGrams : ℚ
  fatsGrams : ℚ
  suggestions : String
  nextMealRecommendation : String
deriving DecidableEq, Repr

/-- A row of the `MealPlan` table; `date` is the start-of-day timestamp
the handlers normalize to (`setHours(0,0,0,0)`), modelled as a day number. -/
structure MealPlanRec where
  id : ℕ
  userId : ℕ
  date : ℤ
  breakfast : String
  lunch : String
  dinner : String
  snacks : String
  totalCalories : ℚ
  proteinGrams : ℚ
  carbsGrams : ℚ
  fatsGrams : ℚ
deriving DecidableEq, Repr

/-- Response of `POST /meal` (stats.js lines 432-524). `ok` carries
HTTP status 200. -/
inductive MealResult
  | ok (plan : MealPlanRec) (suggestions nextMealRecommendation : String)
  | err (status : ℕ) (msg : String)
deriving DecidableEq, Repr

/-- Handler of `POST /meal`, stats.js lines 432-524. The body's four meal
fields are optional; today's plan is looked up by user and day; the LLM
call is abstracted as `llm : Option MealOut`; `freshId` is the id the
database would assign to a newly created row. -/
def mealHandler (userId : ℕ) (breakfast lunch dinner snacks : Option String)
    (today : ℤ) (freshId : ℕ) (db : List MealPlanRec) (llm : Option MealOut) :
    MealResult × List MealPlanRec :=
  if ¬ (truthyS breakfast ∨ truthyS lunch ∨ truthyS dinner) then
    (.err 400 "At least one meal (breakfast, lunch, or dinner) is required", db)
  else
    let existing := db.find? (fun m => m.userId = userId ∧ m.date = today)
    match llm with
    | none => (.err 404 "not found, try refreshing", db)
    | some ai =>
      match existing with
      | some m =>
        let m2 : MealPlanRec :=
          { m with
            breakfast := jsOrS breakfast m.breakfast
            lunch := jsOrS lunch m.lunch
            dinner := jsOrS dinner m.dinner
            snacks := jsOrS snacks m.snacks
            totalCalories := ai.totalCalories
            proteinGrams := ai.proteinGrams
            carbsGrams := ai.carbsGrams
            fatsGrams := ai.fatsGrams }
        (.ok m2 ai.suggestions ai.nextMealRecommendation,
          db.map (fun r => if r.id = m.id then m2 else r))
      | none =>
        let m2 : MealPlanRec :=
          ⟨freshId, userId, today, jsOrS breakfast "", jsOrS lunch "",
            jsOrS dinner "", jsOrS snacks "", ai.totalCalories, ai.proteinGrams,
            ai.carbsGrams, ai.fatsGrams⟩
        (.ok m2 ai.suggestions ai.nextMealRecommendation, db ++ [m2])

/-- Parsed output schema of `weightGoalParser`, stats.js lines 71-77. -/
structure WeightGoalOut where
  suggestedMealPlan : String
  suggestedExercise : String
  toAvoid : String
deriving DecidableEq, Repr

/-- Response of `POST /weight-goal` (stats.js lines 605-697). `ok`
carries HTTP status 200 and the `userProfile` block of the response. -/
inductive WeightGoalResult
  | ok (currentWeight targetWeight weightToChange : ℚ) (goalType : String)
      (currentBMI targetBMI : ℚ) (o : WeightGoalOut)
  | err (status : ℕ) (msg : String)
deriving DecidableEq, Repr

/-- Handler of `POST /weight-goal`, stats.js lines 605-697. `targetWeight`
is the body field (`!targetWeight` is falsy for absent and for 0); the
LLM call is abstracted as `llm : Option WeightGoalOut`. -/
def weightGoalHandler (heightCm currentWeightKg : ℚ) (targetWeight : Option ℚ)
    (llm : Option WeightGoalOut) : WeightGoalResult :=
  if ¬ truthyQ targetWeight then
    .err 400 "Target weight is required and must be a number"
  else
    let tw := targetWeight.getD 0
    if tw < 20 ∨ tw > 500 then
      .err 400 "Target weight must be between 20 and 500 kg"
    else
      let weightDifference := tw - currentWeightKg
      let heightM := heightCm / 100
      let currentBMI := toFixed2 (currentWeightKg / (heightM * heightM))
      let targetBMI := toFixed2 (tw / (heightM * heightM))
      let goalType :=
        if |weightDifference| < 1 then "maintenance"
        else if weightDifference > 0 then "weight gain"
        else "weight loss"
      match llm with
      | none => .err 404 "not found, try refreshing"
      | some parsed =>
        .ok currentWeightKg tw weightDifference goalType currentBMI targetBMI parsed

/-- Parsed output schema of `chatResponseParser`, stats.js lines 80-85. -/
structure ChatOut where
  isRelevant : Bool
  response : String
deriving DecidableEq, Repr

/-- Response of `POST /chat` (stats.js lines 701-842). `ok` carries the
`contextUsed` block; both `ok` and `okIrrelevant` are HTTP status 200. -/
inductive ChatResult
  | ok (response : String) (hasStats hasMeals : Bool) (userBMI : ℚ)
  | okIrrelevant (response : String)
  | err (status : ℕ) (msg : String)
deriving DecidableEq, Repr

/-- Handler of `POST /chat`, stats.js lines 701-842. `message` is the body
field (`none` models absent or non-string); `hasStats`/`hasMeals` model
whether today's `DailyStat`/`MealPlan` rows exist (they only feed the
prompt and the `contextUsed` block); the LLM call is abstracted as
`llm : Option ChatOut`. -/
def chatHandler (heightCm currentWeightKg : ℚ) (message : Option String)
    (hasStats hasMeals : Bool) (llm : Option ChatOut) : ChatResult :=
  match message with
  | none => .err 400 "Message is required and must be a non-empty string"
  | some msg =>
    if msg.trim = "" then
      .err 400 "Message is required and must be a non-empty string"
    else
      let bmi := computeBmi heightCm currentWeightKg
      match llm with
      | none => .err 404 "not found, try refreshing"
      | some parsed =>
        if ¬ parsed.isRelevant then
          .okIrrelevant "I can only help with fitness, health, nutrition, and wellness related questions. Please ask me about your workout routines, diet plans, health goals, or any fitness-related concerns!"
        else
          .ok parsed.response hasStats hasMeals bmi

/-- A row of the `User` table, with the fields `POST /register` stores
(user.js lines 54-69). Numbers are rationals, optional columns are
`Option`, `targetDeadline` is a timestamp. -/
structure User where
  id : ℕ
  name : String
  email : String
  password : String
  profileImage : Option String
  age : ℚ
  heightCm : ℚ
  currentWeightKg : ℚ
  gender : String
  healthGoal : String
  targetWeightKg : Option ℚ
  targetDeadline : Option ℤ
  activityLevel : String
deriving DecidableEq, Repr

/-- The request body of `POST /register`: every field optional
(`none` models an absent / `undefined` JSON field). -/
structure RegisterBody where
  name : Option String
  email : Option String
  password : Option String
  profileImage : Option String
  age : Option ℚ
  heightCm : Option ℚ
  currentWeightKg : Option ℚ
  gender : Option String
  healthGoal : Option String
  targetWeightKg : Option ℚ
  targetDeadline : Option ℤ
  activityLevel : Option String
deriving DecidableEq, Repr

/-- A character admitted by the regex class `[^\s@]`. -/
def emailCharOk (c : Char) : Bool := ¬ c.isWhitespace ∧ c ≠ '@'

/-- Whether the email matches `/^[^\s@]+@[^\s@]+\.[^\s@]+$/`
(userMiddleware.js line 63): exactly one `@`, a nonempty whitespace-free
local part, and a domain part containing a `.` with nonempty
whitespace-free segments on both sides. -/
def emailOk (email : String) : Bool :=
  match jsSplit '@' email with
  | [pre, post] =>
    pre ≠ "" ∧ pre.data.all emailCharOk ∧ post.data.all emailCharOk ∧
      ((post.data.drop 1).dropLast.contains '.')
  | _ => false

/-- List `validGenders`, userMiddleware.js line 104. -/
def validGenders : List String := ["MALE", "FEMALE", "OTHER"]

/-- List `validHealthGoals`, userMiddleware.js line 105. -/
def validHealthGoals : List String := ["WEIGHT_LOSS", "WEIGHT_GAIN", "MAINTENANCE"]

/-- List `validActivityLevels`, userMiddleware.js line 106. -/
def validActivityLevels : List String :=
  ["SEDENTARY", "LIGHT", "MODERATE", "ACTIVE", "VERY_ACTIVE"]

/-- Which check of the registration pipeline rejected the request. -/
inductive RegReason
  | missingFields
  | badEmailFormat
  | shortPassword
  | badAge
  | badHeight
  | badWeight
  | badGender
  | badHealthGoal
  | badActivityLevel
  | dupEmail
deriving DecidableEq, Repr

/-- Middleware `validateRegistration`, userMiddleware.js lines 51-130:
`none` means the request reaches the route handler; `some (status, r)`
is the rejection it answers with. Order and JS falsiness (`!age` is
true for 0) follow the source. -/
def validateRegistration (b : RegisterBody) : Option (ℕ × RegReason) :=
  if ¬ (truthyS b.name ∧ truthyS b.email ∧ truthyS b.password ∧ truthyQ b.age ∧
      truthyQ b.heightCm ∧ truthyQ b.currentWeightKg ∧ truthyS b.gender ∧
      truthyS b.healthGoal ∧ truthyS b.activityLevel) then
    some (400, .missingFields)
  else if ¬ emailOk (b.email.getD "") then some (400, .badEmailFormat)
  else if (b.password.getD "").length < 6 then some (400, .shortPassword)
  else if b.age.getD 0 < 13 ∨ b.age.getD 0 > 120 then some (400, .badAge)
  else if b.heightCm.getD 0 < 50 ∨ b.heightCm.getD 0 > 300 then some (400, .badHeight)
  else if b.currentWeightKg.getD 0 < 20 ∨ b.currentWeightKg.getD 0 > 500 then
    some (400, .badWeight)
  else if ¬ b.gender.getD "" ∈ validGenders then some (400, .badGender)
  else if ¬ b.healthGoal.getD "" ∈ validHealthGoals then some (400, .badHealthGoal)
  else if ¬ b.activityLevel.getD "" ∈ validActivityLevels then
    some (400, .badActivityLevel)
  else none

/-- Outcome of `POST /register`. -/
inductive RegResult
  | rejected (status : ℕ) (reason : RegReason)
  | created (u : User)
deriving DecidableEq, Repr

/-- Route `POST /register`, user.js lines 20-93, composed with its
`validateRegistration` middleware: duplicate-email lookup
(`prisma.user.findUnique({ where: { email } })`, lines 37-47) then
creation. `hash` abstracts bcrypt; `freshId` is the id the database
would assign. Returns the response outcome and the new `User` table. -/
def registerUser (hash : String → String) (freshId : ℕ) (db : List User)
    (b : RegisterBody) : RegResult × List User :=
  match validateRegistration b with
  | some (status, r) => (.rejected status r, db)
  | none =>
    if db.any (fun u => u.email = b.email.getD "") then
      (.rejected 409 .dupEmail, db)
    else
      let u : User :=
        ⟨freshId, b.name.getD "", b.email.getD "", hash (b.password.getD ""),
          b.profileImage, b.age.getD 0, b.heightCm.getD 0,
          b.currentWeightKg.getD 0, b.gender.getD "", b.healthGoal.getD "",
          b.targetWeightKg, b.targetDeadline, b.activityLevel.getD ""⟩
      (.created u, db ++ [u])

/-- A JSON value as far as the user-object responses need. -/
inductive JsVal
  | str (s : String)
  | num (q : ℚ)
  | intNum (z : ℤ)
  | null
deriving DecidableEq, Repr

/-- Encode an optional string column. -/
def optS : Option String → JsVal
  | some s => .str s
  | none => .null

/-- Encode an optional numeric column. -/
def optQ : Option ℚ → JsVal
  | some q => .num q
  | none => .null

/-- Encode an optional timestamp column. -/
def optZ : Option ℤ → JsVal
  | some z => .intNum z
  | none => .null

/-- The JSON serialization of a `User` row, as key-value pairs. -/
def userToJson (u : User) : List (String × JsVal) :=
  [("id", .num u.id), ("name", .str u.name), ("email", .str u.email),
    ("password", .str u.password), ("profileImage", optS u.profileImage),
    ("age", .num u.age), ("heightCm", .num u.heightCm),
    ("currentWeightKg", .num u.currentWeightKg), ("gender", .str u.gender),
    ("healthGoal", .str u.healthGoal), ("targetWeightKg", optQ u.targetWeightKg),
    ("targetDeadline", optZ u.targetDeadline),
    ("activityLevel", .str u.activityLevel)]

/-- JS rest-destructuring `const { password: _, ...userResponse } = user`:
every own property except `password`. -/
def omitPassword (fields : List (String × JsVal)) : List (String × JsVal) :=
  fields.filter (fun kv => kv.1 ≠ "password")

/-- The user object sent by the `POST /register` response (user.js lines 74-84). -/
def registerResponseUser (u : User) : List (String × JsVal) :=
  omitPassword (userToJson u)

/-- The user object sent by the `POST /login` response (user.js lines 125-135). -/
def loginResponseUser (u : User) : List (String × JsVal) :=
  omitPassword (userToJson u)

/-- The user object sent by the `GET /profile` response (user.js lines 148-157). -/
def profileResponseUser (u : User) : List (String × JsVal) :=
  omitPassword (userToJson u)

/-- The user object sent by the `PUT /update` response (user.js lines 259-268). -/
def updateResponseUser (u : User) : List (String × JsVal) :=
  omitPassword (userToJson u)

/-- Token extraction, userMiddleware.js line 10:
`authHeader && authHeader.split(' ')[1]` — `none` when the header is
absent or falsy, the split has no second element, or that element is
the empty string (all falsy in JS). -/
def extractToken (authHeader : Option String) : Option String :=
  match authHeader with
  | none => none
  | some s =>
    if s = "" then none
    else
      match (jsSplit ' ' s)[1]? with
      | none => none
      | some "" => none
      | some t => some t

/-- Outcome of the `authenticateToken` middleware. -/
inductive AuthOutcome
  | failure (status : ℕ) (msg : String)
  | success (u : User)
deriving DecidableEq, Repr

/-- Middleware `authenticateToken`, userMiddleware.js lines 7-48.
`verify` abstracts `jwt.verify` (`none` = invalid or expired token,
`some uid` = the `userId` carried by the token); the user is then
re-fetched from the `User` table. -/
def authenticateToken (authHeader : Option String) (verify : String → Option ℕ)
    (db : List User) : AuthOutcome :=
  match extractToken authHeader with
  | none => .failure 401 "Access token required"
  | some token =>
    match verify token with
    | none => .failure 403 "Invalid or expired token"
    | some uid =>
      match db.find? (fun u => u.id = uid) with
      | none => .failure 404 "User not found"
      | some u => .success u

/-- A row of the `Event` table. `eventDate` is a timestamp. -/
structure Event where
  id : ℕ
  name : String
  description : String
  location : String
  duration : ℚ
  etype : String
  trainer : Option String
  eventDate : ℤ
  creatorId : ℕ
deriving DecidableEq, Repr

/-- A row of the `EventRegistration` table (unique on `(userId, eventId)`). -/
structure EventReg where
  userId : ℕ
  eventId : ℕ
deriving DecidableEq, Repr

/-- The event-related database state. -/
structure EventsDb where
  events : List Event
  registrations : List EventReg
deriving DecidableEq, Repr

/-- The request body of `POST /create` and `PUT /:id` on events: all
fields optional; a provided `eventDate` is `some none` when the date
string does not parse (`isNaN(new Date(...))`) and `some (some d)` when
it parses to timestamp `d`. -/
structure EventBody where
  name : Option String
  description : Option String
  location : Option String
  duration : Option ℚ
  etype : Option String
  trainer : Option String
  eventDate : Option (Option ℤ)
deriving DecidableEq, Repr

/-- Middleware `validateEventData`, events.js lines 9-37: `none` lets
the request through, `some (status, msg)` rejects it. `now` is the
clock read by `new Date()`. -/
def validateEventData (b : EventBody) (now : ℤ) : Option (ℕ × String) :=
  if ¬ (truthyS b.name ∧ truthyS b.description ∧ truthyS b.location ∧
      truthyQ b.duration ∧ truthyS b.etype ∧ b.eventDate.isSome) then
    some (400, "All required fields must be provided: name, description, location, duration, type, eventDate")
  else
    match b.eventDate with
    | some none => some (400, "Invalid event date format")
    | some (some d) =>
      if d < now then some (400, "Event date must be in the future") else none
    | none => some (400, "All required fields must be provided: name, description, location, duration, type, eventDate")

/-- Outcome of an event route: HTTP status, message, and the database
state after the request. -/
structure EventOutcome where
  status : ℕ
  msg : String
  db : EventsDb
deriving DecidableEq, Repr

/-- Route `POST /:id/register`, events.js lines 329-407: 404 when the event
does not exist, 400 for past events, 409 when a registration by this
user for this event already exists, else create the registration (201). -/
def registerForEvent (db : EventsDb) (now : ℤ) (eventId userId : ℕ) :
    EventOutcome :=
  match db.events.find? (fun e => e.id = eventId) with
  | none => ⟨404, "Event not found", db⟩
  | some e =>
    if e.eventDate < now then ⟨400, "Cannot register for past events", db⟩
    else
      match db.registrations.find? (fun r => r.userId = userId ∧ r.eventId = eventId) with
      | some _ => ⟨409, "You are already registered for this event", db⟩
      | none =>
        ⟨201, "Successfully registered for the event",
          { db with registrations := db.registrations ++ [⟨userId, eventId⟩] }⟩

/-- The field-wise update `PUT /:id` applies (events.js lines 262-283):
each provided field (`!== undefined`) replaces the stored one; a
provided valid date `d` replaces `eventDate`. -/
def applyEventUpdate (e : Event) (b : EventBody) (d : Option ℤ) : Event :=
  { e with
    name := b.name.getD e.name
    description := b.description.getD e.description
    location := b.location.getD e.location
    duration := b.duration.getD e.duration
    etype := b.etype.getD e.etype
    trainer := match b.trainer with | some t => some t | none => e.trainer
    eventDate := d.getD e.eventDate }

/-- Route `PUT /:id`, events.js lines 236-326: 404 when the event does not
exist, 403 when the requester is not the creator, 400 for an invalid or
past date, else apply the update (200). -/
def updateEvent (db : EventsDb) (now : ℤ) (id userId : ℕ) (b : EventBody) :
    EventOutcome :=
  match db.events.find? (fun e => e.id = id) with
  | none => ⟨404, "Event not found", db⟩
  | some e =>
    if e.creatorId ≠ userId then
      ⟨403, "Only the event creator can update this event", db⟩
    else
      match b.eventDate with
      | some none => ⟨400, "Invalid event date format", db⟩
      | some (some d) =>
        if d < now then ⟨400, "Event date must be in the future", db⟩
        else
          ⟨200, "Event updated successfully",
            { db with events :=
                db.events.map (fun ev => if ev.id = id then applyEventUpdate e b (some d) else ev) }⟩
      | none =>
        ⟨200, "Event updated successfully",
          { db with events :=
              db.events.map (fun ev => if ev.id = id then applyEventUpdate e b none else ev) }⟩

/-- Route `DELETE /:id`, events.js lines 569-610: 404 when the event does not
exist, 403 when the requester is not the creator, else delete the event
and (by cascade) its registrations (200). -/
def deleteEvent (db : EventsDb) (id userId : ℕ) : EventOutcome :=
  match db.events.find? (fun e => e.id = id) with
  | none => ⟨404, "Event not found", db⟩
  | some e =>
    if e.creatorId ≠ userId then
      ⟨403, "Only the event creator can delete this event", db⟩
    else
      ⟨200, "Event deleted successfully",
        ⟨db.events.filter (fun ev => ev.id ≠ id),
          db.registrations.filter (fun r => r.eventId ≠ id)⟩⟩

/-- The `bmi` field of a `POST /bmi` response, when the response carries one. -/
def BmiResult.bmiOf : BmiResult → Option ℚ
  | .healthy bmi _ _ _ _ _ => some bmi
  | .plan bmi _ _ _ _ => some bmi
  | .err _ _ => none

/-- The `userProfile.currentBMI` field of a `POST /weight-goal`
response, when the response carries one. -/
def WeightGoalResult.currentBMIof : WeightGoalResult → Option ℚ
  | .ok _ _ _ _ currentBMI _ _ => some currentBMI
  | .err _ _ => none

end FitSync

namespace FitSync

/-- Every entry of the `activityCalories` table is positive. -/
theorem activityCaloriesLookup_pos (s : String) (met : ℚ)
    (h : activityCaloriesLookup s = some met) : 0 < met := by
  unfold activityCaloriesLookup at h
  repeat' split at h
  all_goals simp_all
  all_goals norm_num [← h]

/-- Rounding to two decimals moves a rational by at most `1/200`. -/
theorem toFixed2_close (x : ℚ) : |toFixed2 x - x| ≤ 1/200 := by
  have h1 : ((⌊x * 100 + 1/2⌋ : ℤ) : ℚ) ≤ x * 100 + 1/2 := Int.floor_le _
  have h2 : x * 100 + 1/2 - 1 < ((⌊x * 100 + 1/2⌋ : ℤ) : ℚ) := Int.sub_one_lt_floor _
  rw [abs_le]
  unfold toFixed2 jsRound
  constructor <;> [linarith; linarith]

/-- C1: for every BMI value, `getBMICategory` (and the dashboard's inline
copy) returns "Underweight" below 18.5, "Normal" with the good flag set
on [18.5, 25), "Overweight" on [25, 30) and "Obese" from 30 on; the good
flag is false in all non-Normal cases. -/
theorem bmi_category_spec (bmi : ℚ) :
    (bmi < 18.5 →
      getBMICategory bmi = ⟨"Underweight", false⟩ ∧
      dashboardBmiCategory bmi = ⟨"Underweight", false⟩) ∧
    (18.5 ≤ bmi → bmi < 25 →
      getBMICategory bmi = ⟨"Normal", true⟩ ∧
      dashboardBmiCategory bmi = ⟨"Normal", true⟩) ∧
    (25 ≤ bmi → bmi < 30 →
      getBMICategory bmi = ⟨"Overweight", false⟩ ∧
      dashboardBmiCategory bmi = ⟨"Overweight", false⟩) ∧
    (30 ≤ bmi →
      getBMICategory bmi = ⟨"Obese", false⟩ ∧
      dashboardBmiCategory bmi = ⟨"Obese", false⟩) := by
  refine ⟨fun h => ?_, fun h1 h2 => ?_, fun h1 h2 => ?_, fun h => ?_⟩
  · exact ⟨by unfold getBMICategory; rw [if_pos h],
      by unfold dashboardBmiCategory; rw [if_pos h]⟩
  · exact ⟨by unfold getBMICategory; rw [if_neg (not_lt.mpr h1), if_pos h2],
      by unfold dashboardBmiCategory; rw [if_neg (not_lt.mpr h1), if_pos h2]⟩
  · have hn1 : ¬ bmi < 18.5 := by linarith
    have hn2 : ¬ bmi < 25 := by linarith
    exact ⟨by unfold getBMICategory; rw [if_neg hn1, if_neg hn2, if_pos h2],
      by unfold dashboardBmiCategory; rw [if_neg hn1, if_neg hn2, if_pos h2]⟩
  · have hn1 : ¬ bmi < 18.5 := by linarith
    have hn2 : ¬ bmi < 25 := by linarith
    have hn3 : ¬ bmi < 30 := by linarith
    exact ⟨by unfold getBMICategory; rw [if_neg hn1, if_neg hn2, if_neg hn3],
      by unfold dashboardBmiCategory; rw [if_neg hn1, if_neg hn2, if_neg hn3]⟩

/-- Witness for C1 at BMI values 17, 22, 27 and 35. -/
theorem bmi_category_spec_witness :
    getBMICategory 17 = ⟨"Underweight", false⟩ ∧
    getBMICategory 22 = ⟨"Normal", true⟩ ∧
    getBMICategory 27 = ⟨"Overweight", false⟩ ∧
    getBMICategory 35 = ⟨"Obese", false⟩ :=
  ⟨((bmi_category_spec 17).1 (by norm_num)).1,
    ((bmi_category_spec 22).2.1 (by norm_num) (by norm_num)).1,
    ((bmi_category_spec 27).2.2.1 (by norm_num) (by norm_num)).1,
    ((bmi_category_spec 35).2.2.2 (by norm_num)).1⟩

/-- C2: for every activity, duration and weight, the local estimate is
the table's kcal/min constant times the minutes times `weightKg / 70`,
rounded; an activity whose lowercased name is not in the table yields
`null`. -/
theorem calculateCalories_spec (activity : String) (minutes weightKg : ℚ) :
    (∀ met, activityCaloriesLookup (jsToLower activity) = some met →
      calculateCalories activity minutes weightKg =
        some ((jsRound (met * minutes * (weightKg / 70)) : ℤ) : ℚ)) ∧
    (activityCaloriesLookup (jsToLower activity) = none →
      calculateCalories activity minutes weightKg = none) := by
  constructor
  · intro met h
    have hpos := activityCaloriesLookup_pos _ _ h
    unfold calculateCalories
    rw [h]
    simp [hpos.ne']
  · intro h
    unfold calculateCalories
    rw [h]

/-- Witness for C2: 30 minutes of "Running" at 70 kg gives 300 kcal;
"flying" yields no local estimate. -/
theorem calculateCalories_spec_witness :
    calculateCalories "Running" 30 70 = some 300 ∧
    calculateCalories "flying" 30 70 = none :=
  ⟨by
    have h := (calculateCalories_spec "Running" 30 70).1 10 rfl
    rw [h]
    norm_num [jsRound],
  (calculateCalories_spec "flying" 30 70).2 rfl⟩

/-- C7: the BMI the stats endpoints compute is
`weightKg / (heightCm/100)^2` rounded to two decimals, hence within
`1/200` of the exact value; whenever `POST /bmi` or `POST /weight-goal`
reports a (current) BMI it is exactly this value. -/
theorem bmi_formula_spec (heightCm weightKg : ℚ) (hpos : 0 < heightCm) :
    computeBmi heightCm weightKg = toFixed2 (weightKg / ((heightCm/100)^2)) ∧
    |computeBmi heightCm weightKg - weightKg / ((heightCm/100)^2)| ≤ 1/200 ∧
    (∀ llm, (bmiHandler heightCm weightKg llm).1.bmiOf = none ∨
      (bmiHandler heightCm weightKg llm).1.bmiOf = some (computeBmi heightCm weightKg)) ∧
    (∀ tw parsed, (weightGoalHandler heightCm weightKg tw parsed).currentBMIof = none ∨
      (weightGoalHandler heightCm weightKg tw parsed).currentBMIof =
        some (computeBmi heightCm weightKg)) := by
  have hsq : (heightCm/100)^2 = heightCm/100 * (heightCm/100) := sq (heightCm/100)
  refine ⟨?_, ?_, ?_, ?_⟩
  · unfold computeBmi
    rw [hsq]
  · unfold computeBmi
    rw [hsq]
    exact toFixed2_close _
  · intro llm
    simp only [bmiHandler]
    split
    · right; simp [BmiResult.bmiOf]
    · cases llm
      · left; rfl
      · right; simp [BmiResult.bmiOf]
  · intro tw parsed
    simp only [weightGoalHandler]
    split
    · left; rfl
    · split
      · left; rfl
      · cases parsed
        · left; rfl
        · right
          simp [WeightGoalResult.currentBMIof, computeBmi]

/-- Witness for C7 at height 170 cm, weight 65 kg. -/
theorem bmi_formula_spec_witness :
    (0:ℚ) < 170 ∧ computeBmi 170 65 = toFixed2 (65 / (((170:ℚ)/100)^2)) :=
  ⟨by norm_num, (bmi_formula_spec 170 65 (by norm_num)).1⟩

/-- C10: when the computed BMI lies in [18.5, 25), `POST /bmi` answers
immediately with the healthy-range message and the "NA" placeholders,
for every possible LLM outcome, and the LLM is not invoked. -/
theorem bmi_healthy_shortcircuit (heightCm weightKg : ℚ) (llm : Option MealPlanOut)
    (h1 : 18.5 ≤ computeBmi heightCm weightKg)
    (h2 : computeBmi heightCm weightKg < 25) :
    bmiHandler heightCm weightKg llm =
      (.healthy (computeBmi heightCm weightKg) "Normal" true
        "Your BMI is in a healthy range!" "NA" "NA", false) := by
  unfold bmiHandler
  simp [getBMICategory, not_lt.mpr h1, h2]

/-- Witness for C10 at height 170 cm, weight 65 kg (BMI 22.49). -/
theorem bmi_healthy_shortcircuit_witness :
    bmiHandler 170 65 none =
      (.healthy (computeBmi 170 65) "Normal" true
        "Your BMI is in a healthy range!" "NA" "NA", false) :=
  bmi_healthy_shortcircuit 170 65 none
    (by norm_num [computeBmi, toFixed2, jsRound])
    (by norm_num [computeBmi, toFixed2, jsRound])

/-- C4 counterexample: for a past event (date 100, clock 200) with an
existing registration of user 5, a second registration request returns
status 400, not 409. -/
theorem event_reregistration_past_counterexample :
    (registerForEvent
      ⟨[⟨1, "Morning Yoga", "desc", "park", 60, "yoga", none, 100, 2⟩], [⟨5, 1⟩]⟩
      200 1 5).status = 400 ∧
    ((registerForEvent
      ⟨[⟨1, "Morning Yoga", "desc", "park", 60, "yoga", none, 100, 2⟩], [⟨5, 1⟩]⟩
      200 1 5).status = 409 → False) := by
  exact ⟨rfl, by decide⟩

/-- C4 (amended): when the event exists and its date has not passed, a
second registration by an already-registered user is rejected with 409
and the database is unchanged; moreover, whatever the clock says, a
request by an already-registered user never changes the database (for a
past event it is rejected with 400 instead). -/
theorem event_reregistration_conflict (db : EventsDb) (now : ℤ) (eventId userId : ℕ)
    (e : Event) (rr : EventReg)
    (he : db.events.find? (fun ev => ev.id = eventId) = some e)
    (hfut : ¬ e.eventDate < now)
    (hreg : db.registrations.find? (fun r => r.userId = userId ∧ r.eventId = eventId) = some rr) :
    registerForEvent db now eventId userId =
      ⟨409, "You are already registered for this event", db⟩ ∧
    ∀ now2, (registerForEvent db now2 eventId userId).db = db := by
  constructor
  · unfold registerForEvent
    simp only [he]
    rw [if_neg hfut]
    simp only [hreg]
  · intro now2
    unfold registerForEvent
    simp only [he]
    split
    · rfl
    · simp only [hreg]

/-- Witness for C4 (amended): event date 100, clock 50, user 5 already
registered for event 1. -/
theorem event_reregistration_conflict_witness :
    registerForEvent
      ⟨[⟨1, "Morning Yoga", "desc", "park", 60, "yoga", none, 100, 2⟩], [⟨5, 1⟩]⟩
      50 1 5 =
      ⟨409, "You are already registered for this event",
        ⟨[⟨1, "Morning Yoga", "desc", "park", 60, "yoga", none, 100, 2⟩], [⟨5, 1⟩]⟩⟩ :=
  (event_reregistration_conflict
    ⟨[⟨1, "Morning Yoga", "desc", "park", 60, "yoga", none, 100, 2⟩], [⟨5, 1⟩]⟩ 50 1 5
    ⟨1, "Morning Yoga", "desc", "park", 60, "yoga", none, 100, 2⟩ ⟨5, 1⟩
    rfl (by decide) rfl).1

/-- C9: a non-creator's update or delete request on an existing event
returns 403 and leaves the database unchanged; conversely, whenever an
update or delete request changes the database, the requester is the
event's creator. -/
theorem event_creator_only_spec (db : EventsDb) (now : ℤ) (id userId : ℕ)
    (b : EventBody) (e : Event)
    (he : db.events.find? (fun ev => ev.id = id) = some e)
    (hne : e.creatorId ≠ userId) :
    updateEvent db now id userId b =
      ⟨403, "Only the event creator can update this event", db⟩ ∧
    deleteEvent db id userId =
      ⟨403, "Only the event creator can delete this event", db⟩ ∧
    (∀ now2 uid2 b2, (updateEvent db now2 id uid2 b2).db ≠ db → e.creatorId = uid2) ∧
    (∀ uid2, (deleteEvent db id uid2).db ≠ db → e.creatorId = uid2) := by
  refine ⟨?_, ?_, ?_, ?_⟩
  · unfold updateEvent
    simp only [he]
    rw [if_pos hne]
  · unfold deleteEvent
    simp only [he]
    rw [if_pos hne]
  · intro now2 uid2 b2 hchg
    by_contra hne2
    apply hchg
    unfold updateEvent
    simp only [he]
    rw [if_pos hne2]
  · intro uid2 hchg
    by_contra hne2
    apply hchg
    unfold deleteEvent
    simp only [he]
    rw [if_pos hne2]

/-- Witness for C9: user 5 tries to update and delete event 1 created
by user 2. -/
theorem event_creator_only_spec_witness :
    updateEvent
      ⟨[⟨1, "Morning Yoga", "desc", "park", 60, "yoga", none, 100, 2⟩], []⟩
      0 1 5 ⟨none, none, none, none, none, none, none⟩ =
      ⟨403, "Only the event creator can update this event",
        ⟨[⟨1, "Morning Yoga", "desc", "park", 60, "yoga", none, 100, 2⟩], []⟩⟩ :=
  (event_creator_only_spec
    ⟨[⟨1, "Morning Yoga", "desc", "park", 60, "yoga", none, 100, 2⟩], []⟩
    0 1 5 ⟨none, none, none, none, none, none, none⟩
    ⟨1, "Morning Yoga", "desc", "park", 60, "yoga", none, 100, 2⟩
    rfl (by decide)).1

/-- C6 counterexample: a syntactically valid bearer token whose user id
is absent from the `User` table makes `authenticateToken` fail with
status 404, which is neither 401 nor 403. -/
theorem auth_deleted_user_counterexample :
    authenticateToken (some "Bearer tok") (fun _ => some 7) [] =
      .failure 404 "User not found" ∧
    ((404:ℕ) = 401 ∨ (404:ℕ) = 403 → False) :=
  ⟨rfl, by decide⟩

/-- C6 (amended): every failure of the bearer-token authentication step
returns 401 (missing token), 403 (invalid or expired token) or 404 (the
token's user no longer exists); every rejection of the event-data
validation middleware returns 400. -/
theorem error_status_spec (authHeader : Option String) (verify : String → Option ℕ)
    (db : List User) (b : EventBody) (now : ℤ) :
    (∀ s m, authenticateToken authHeader verify db = .failure s m →
      s = 401 ∨ s = 403 ∨ s = 404) ∧
    (∀ x, validateEventData b now = some x → x.1 = 400) := by
  constructor
  · intro s m h
    unfold authenticateToken at h
    repeat' split at h
    all_goals simp_all
  · intro x h
    unfold validateEventData at h
    repeat' split at h
    all_goals simp_all
    all_goals simp [← h]

/-- Witness for C6 (amended): a request with no Authorization header. -/
theorem error_status_spec_witness :
    (401:ℕ) = 401 ∨ (401:ℕ) = 403 ∨ (401:ℕ) = 404 :=
  (error_status_spec none (fun _ => none) [] ⟨none, none, none, none, none, none, none⟩ 0).1
    401 "Access token required" rfl

/-- C5 counterexample: when the LLM call fails on `POST /activity` for
a known activity ("running", 30 minutes, 70 kg), the handler responds
with success (the stored fallback), not with a 404 error. -/
theorem activity_ai_failure_counterexample :
    activityHandler 1 70 (some "running") none 0 none [] =
      (.ok 300 "Great job completing your workout! Keep up the good work.",
        [⟨1, "running", 30, 300, "AI suggestions temporarily unavailable", 0⟩]) ∧
    ∀ s m, ActivityResult.ok 300
      "Great job completing your workout! Keep up the good work." ≠ .err s m := by
  constructor
  · have hl : activityCaloriesLookup (jsToLower "running") = some 10 := rfl
    have hc : calculateCalories "running" 30 70 = some 300 := by
      norm_num [calculateCalories, hl, jsRound]
    unfold activityHandler
    norm_num [truthyS, hc]
    decide
  · intro s m h
    exact ActivityResult.noConfusion h

/-- C5 (amended): when the LLM call fails or its reply does not parse,
`POST /bmi` (outside the healthy range), `POST /meal`, `POST
/weight-goal` and `POST /chat` respond 404 with the "try refreshing"
error and leave state unchanged; `POST /activity` does so only when no
usable local calorie estimate exists, and otherwise logs the activity
with fallback suggestions and responds with success. -/
theorem llm_failure_spec :
    (∀ h w, (getBMICategory (computeBmi h w)).good = false →
      bmiHandler h w none = (.err 404 "not found, try refreshing", true)) ∧
    (∀ uid w a m now db, truthyS a = true →
      (calculateCalories (a.getD "") (m.getD 30) w = none →
        activityHandler uid w a m now none db =
          (.err 404 "not found, try refreshing", db)) ∧
      (calculateCalories (a.getD "") (m.getD 30) w = some 0 →
        activityHandler uid w a m now none db =
          (.err 404 "not found, try refreshing", db)) ∧
      (∀ c, calculateCalories (a.getD "") (m.getD 30) w = some c → c ≠ 0 →
        activityHandler uid w a m now none db =
          (.ok c "Great job completing your workout! Keep up the good work.",
            db ++ [⟨uid, a.getD "", m.getD 30, c,
              "AI suggestions temporarily unavailable", now⟩]))) ∧
    (∀ uid b l d s today fid db, (truthyS b ∨ truthyS l ∨ truthyS d) →
      mealHandler uid b l d s today fid db none =
        (.err 404 "not found, try refreshing", db)) ∧
    (∀ h w tw, truthyQ tw = true → ¬ (tw.getD 0 < 20 ∨ tw.getD 0 > 500) →
      weightGoalHandler h w tw none = .err 404 "not found, try refreshing") ∧
    (∀ h w msg hs hm, (msg : String).trim ≠ "" →
      chatHandler h w (some msg) hs hm none = .err 404 "not found, try refreshing") := by
  refine ⟨?_, ?_, ?_, ?_, ?_⟩
  · intro h w hg
    unfold bmiHandler
    simp [hg]
  · intro uid w a m now db ht
    refine ⟨?_, ?_, ?_⟩
    · intro hcal
      unfold activityHandler
      simp [ht, hcal]
    · intro hcal
      unfold activityHandler
      simp [ht, hcal]
    · intro c hcal hc
      unfold activityHandler
      simp [ht, hcal, hc]
  · intro uid b l d s today fid db hmeal
    unfold mealHandler
    rw [if_neg (not_not_intro hmeal)]
  · intro h w tw ht hrange
    simp only [weightGoalHandler]
    rw [if_neg (not_not_intro ht), if_neg hrange]
  · intro h w msg hs hm hmsg
    simp only [chatHandler]
    rw [if_neg hmsg]

/-- Witness for C5 (amended): `POST /meal` with breakfast "eggs" and a
failed LLM call. -/
theorem llm_failure_spec_witness :
    mealHandler 1 (some "eggs") none none none 0 2 [] none =
      (.err 404 "not found, try refreshing", []) :=
  llm_failure_spec.2.2.1 1 (some "eggs") none none none 0 2 [] (Or.inl (by decide))

/-- C8: the user object in the success responses of register, login,
profile and update carries no `password` key, and carries every
non-password field of the stored user unchanged. -/
theorem password_stripped_spec (u : User) :
    "password" ∉ (registerResponseUser u).map Prod.fst ∧
    "password" ∉ (loginResponseUser u).map Prod.fst ∧
    "password" ∉ (profileResponseUser u).map Prod.fst ∧
    "password" ∉ (updateResponseUser u).map Prod.fst ∧
    (∀ k v, k ≠ "password" →
      (((k, v) ∈ userToJson u) ↔ (k, v) ∈ registerResponseUser u) ∧
      (((k, v) ∈ userToJson u) ↔ (k, v) ∈ loginResponseUser u) ∧
      (((k, v) ∈ userToJson u) ↔ (k, v) ∈ profileResponseUser u) ∧
      (((k, v) ∈ userToJson u) ↔ (k, v) ∈ updateResponseUser u)) := by
  have key : ∀ k v, ((k, v) ∈ omitPassword (userToJson u)) ↔
      ((k, v) ∈ userToJson u ∧ k ≠ "password") := by
    intro k v
    unfold omitPassword
    rw [List.mem_filter]
    simp
  have hnp : "password" ∉ (omitPassword (userToJson u)).map Prod.fst := by
    intro hmem
    rw [List.mem_map] at hmem
    obtain ⟨⟨k2, v2⟩, hin, hfst⟩ := hmem
    exact ((key k2 v2).mp hin).2 (by simpa using hfst)
  have hiff : ∀ k v, k ≠ "password" →
      (((k, v) ∈ userToJson u) ↔ (k, v) ∈ omitPassword (userToJson u)) := by
    intro k v hk
    constructor
    · intro h
      exact (key k v).mpr ⟨h, hk⟩
    · intro h
      exact ((key k v).mp h).1
  exact ⟨hnp, hnp, hnp, hnp,
    fun k v hk => ⟨hiff k v hk, hiff k v hk, hiff k v hk, hiff k v hk⟩⟩

/-- Witness for C8 at a sample user. -/
theorem password_stripped_spec_witness :
    "password" ∉ (registerResponseUser
      ⟨1, "Al", "al@x.io", "hashed", none, 30, 170, 70, "MALE", "WEIGHT_LOSS",
        none, none, "LIGHT"⟩).map Prod.fst :=
  (password_stripped_spec
    ⟨1, "Al", "al@x.io", "hashed", none, 30, 170, 70, "MALE", "WEIGHT_LOSS",
      none, none, "LIGHT"⟩).1

/-- Every rejection of `validateRegistration` carries status 400. -/
theorem validateRegistration_status (b : RegisterBody) (x : ℕ × RegReason)
    (h : validateRegistration b = some x) : x.1 = 400 := by
  unfold validateRegistration at h
  repeat' split at h
  all_goals simp_all
  all_goals simp [← h]

/-- When `validateRegistration` lets a request through, every provided
range-checked field is in range and every provided enum field is valid. -/
theorem validateRegistration_none_facts (b : RegisterBody)
    (h : validateRegistration b = none) :
    (∀ a, b.age = some a → 13 ≤ a ∧ a ≤ 120) ∧
    (∀ x, b.heightCm = some x → 50 ≤ x ∧ x ≤ 300) ∧
    (∀ x, b.currentWeightKg = some x → 20 ≤ x ∧ x ≤ 500) ∧
    (∀ g, b.gender = some g → g ∈ validGenders) ∧
    (∀ g, b.healthGoal = some g → g ∈ validHealthGoals) ∧
    (∀ g, b.activityLevel = some g → g ∈ validActivityLevels) := by
  unfold validateRegistration at h
  split_ifs at h with h1 h2 h3 h4 h5 h6 h7 h8 h9
  any_goals simp at h
  refine ⟨fun y hy => ?_, fun y hy => ?_, fun y hy => ?_,
    fun y hy => ?_, fun y hy => ?_, fun y hy => ?_⟩
  · rw [hy] at h4
    simp only [Option.getD_some] at h4
    push_neg at h4
    exact h4
  · rw [hy] at h5
    simp only [Option.getD_some] at h5
    push_neg at h5
    exact h5
  · rw [hy] at h6
    simp only [Option.getD_some] at h6
    push_neg at h6
    exact h6
  · rw [hy] at h7
    simp only [Option.getD_some] at h7
    exact h7
  · rw [hy] at h8
    simp only [Option.getD_some] at h8
    exact h8
  · rw [hy] at h9
    simp only [Option.getD_some] at h9
    exact h9

/-- When every provided range/enum field of the body is good, a
rejection by `validateRegistration` can only be for missing fields, a
malformed email, or a short password. -/
theorem validateRegistration_reason (b : RegisterBody)
    (a hc w : ℚ) (g hg2 al : String)
    (ha : b.age = some a) (ha1 : 13 ≤ a) (ha2 : a ≤ 120)
    (hhc : b.heightCm = some hc) (hc1 : 50 ≤ hc) (hc2 : hc ≤ 300)
    (hw : b.currentWeightKg = some w) (hw1 : 20 ≤ w) (hw2 : w ≤ 500)
    (hgg : b.gender = some g) (hg1 : g ∈ validGenders)
    (hhg : b.healthGoal = some hg2) (hhg1 : hg2 ∈ validHealthGoals)
    (hal : b.activityLevel = some al) (hal1 : al ∈ validActivityLevels) :
    ∀ x, validateRegistration b = some x →
      x.2 = .missingFields ∨ x.2 = .badEmailFormat ∨ x.2 = .shortPassword := by
  intro x hx
  unfold validateRegistration at hx
  rw [ha, hhc, hw, hgg, hhg, hal] at hx
  simp only [Option.getD_some] at hx
  have hna : ¬ (a < 13 ∨ a > 120) := by rintro (h | h) <;> linarith
  have hnh : ¬ (hc < 50 ∨ hc > 300) := by rintro (h | h) <;> linarith
  have hnw : ¬ (w < 20 ∨ w > 500) := by rintro (h | h) <;> linarith
  simp only [if_neg hna, if_neg hnh, if_neg hnw, if_neg (not_not_intro hg1),
    if_neg (not_not_intro hhg1), if_neg (not_not_intro hal1)] at hx
  split_ifs at hx
  all_goals first
    | exact Option.noConfusion hx
    | (cases Option.some.inj hx; simp)

/-- C3: a registration whose email already exists, whose age, height or
weight is out of range, or whose gender, healthGoal or activityLevel is
not a recognized enum value, is rejected with an error status and the
`User` table unchanged; a request whose provided fields pass all these
checks can only be rejected for reasons outside them (missing fields,
malformed email, short password). -/
theorem registration_validation_spec (hash : String → String) (freshId : ℕ)
    (db : List User) (b : RegisterBody) :
    (((∃ e, b.email = some e ∧ db.any (fun u => u.email = e) = true) ∨
      (∃ a, b.age = some a ∧ (a < 13 ∨ a > 120)) ∨
      (∃ x, b.heightCm = some x ∧ (x < 50 ∨ x > 300)) ∨
      (∃ x, b.currentWeightKg = some x ∧ (x < 20 ∨ x > 500)) ∨
      (∃ g, b.gender = some g ∧ g ∉ validGenders) ∨
      (∃ g, b.healthGoal = some g ∧ g ∉ validHealthGoals) ∨
      (∃ g, b.activityLevel = some g ∧ g ∉ validActivityLevels)) →
      ∃ s r, registerUser hash freshId db b = (.rejected s r, db) ∧ 400 ≤ s) ∧
    (∀ e a hc w g hg2 al,
      b.email = some e → db.any (fun u => u.email = e) = false →
      b.age = some a → 13 ≤ a → a ≤ 120 →
      b.heightCm = some hc → 50 ≤ hc → hc ≤ 300 →
      b.currentWeightKg = some w → 20 ≤ w → w ≤ 500 →
      b.gender = some g → g ∈ validGenders →
      b.healthGoal = some hg2 → hg2 ∈ validHealthGoals →
      b.activityLevel = some al → al ∈ validActivityLevels →
      ∀ s r db2, registerUser hash freshId db b = (.rejected s r, db2) →
        r = .missingFields ∨ r = .badEmailFormat ∨ r = .shortPassword) := by
  constructor
  · intro hD
    cases hv : validateRegistration b with
    | some x =>
      obtain ⟨s, r⟩ := x
      refine ⟨s, r, ?_, ?_⟩
      · unfold registerUser
        rw [hv]
      · have hst := validateRegistration_status b (s, r) hv
        simp at hst
        omega
    | none =>
      have facts := validateRegistration_none_facts b hv
      rcases hD with ⟨e, he, hdup⟩ | ⟨a, ha, hr⟩ | ⟨x, hx, hr⟩ | ⟨x, hx, hr⟩ |
        ⟨g, hg, hr⟩ | ⟨g, hg, hr⟩ | ⟨g, hg, hr⟩
      · refine ⟨409, .dupEmail, ?_, by norm_num⟩
        unfold registerUser
        rw [hv, he]
        simp only [Option.getD_some]
        simp [hdup]
      · exfalso; rcases hr with h | h
        · linarith [(facts.1 a ha).1]
        · linarith [(facts.1 a ha).2]
      · exfalso; rcases hr with h | h
        · linarith [(facts.2.1 x hx).1]
        · linarith [(facts.2.1 x hx).2]
      · exfalso; rcases hr with h | h
        · linarith [(facts.2.2.1 x hx).1]
        · linarith [(facts.2.2.1 x hx).2]
      · exact absurd (facts.2.2.2.1 g hg) hr
      · exact absurd (facts.2.2.2.2.1 g hg) hr
      · exact absurd (facts.2.2.2.2.2 g hg) hr
  · intro e a hc w g hg2 al he hdup ha ha1 ha2 hhc hc1 hc2 hw hw1 hw2 hgg hg1
      hhg hhg1 hal hal1 s r db2 heq
    cases hv : validateRegistration b with
    | none =>
      unfold registerUser at heq
      rw [hv, he] at heq
      simp only [Option.getD_some] at heq
      simp [hdup] at heq
    | some x =>
      obtain ⟨s0, r0⟩ := x
      have hr3 := validateRegistration_reason b a hc w g hg2 al ha ha1 ha2
        hhc hc1 hc2 hw hw1 hw2 hgg hg1 hhg hhg1 hal hal1 (s0, r0) hv
      unfold registerUser at heq
      rw [hv] at heq
      simp only [Prod.mk.injEq, RegResult.rejected.injEq] at heq
      obtain ⟨⟨hs, hrr⟩, hdb⟩ := heq
      rw [← hrr]
      exact hr3

/-- Witness for C3: registration with age 10 is rejected with an error
status and no user created. -/
theorem registration_validation_spec_witness :
    ∃ s r, registerUser (fun p => p) 1 []
      ⟨some "Al", some "al@x.io", some "secret1", none, some 10, some 170, some 70,
        some "MALE", some "WEIGHT_LOSS", none, none, some "LIGHT"⟩ =
      (.rejected s r, []) ∧ 400 ≤ s :=
  (registration_validation_spec (fun p => p) 1 []
    ⟨some "Al", some "al@x.io", some "secret1", none, some 10, some 170, some 70,
      some "MALE", some "WEIGHT_LOSS", none, none, some "LIGHT"⟩).1
    (Or.inr (Or.inl ⟨10, rfl, Or.inl (by norm_num)⟩))

end FitSync
